import Mathlib

/-!
# ETERNITY stream tracker: verification of the session lifecycle, crash
recovery and report aggregation

Shallow embedding of the core of the ETERNITY stream-tracker bot:

* `src/models/StreamActivity.js` — the per-`(userId, guildId)` aggregate
  (`startStream`, `endStream`, rolling day/week/month totals);
* `src/utils/streamUtils.js` — the tracker operations built on the store
  (`startStreamSession`, `endStreamSession`, `markStreamAsInterrupted`,
  `getServerStreamLeaderboard`, `getAllActiveStreams`);
* `src/index.js` — crash recovery (`checkPreviousSessionStreams`);
* the report generator (`generateHourlyReport` / `generateDailyReport`) —
  window overlap, deduplication, per-stream duration attribution and
  pagination.

Timestamps are modelled as natural numbers of milliseconds (JS `Date`
values); calendar bucket tags (`YYYY-MM-DD` day, ISO week, month) are opaque
strings supplied by the caller, standing for what `getTimePeriods` computes
at the relevant instant.  The Mongo store is modelled as the list of
aggregate documents; each tracker operation is one atomic read-modify-write
of a single aggregate, which is how the single-process bot serialises
operations on a key.
-/

namespace Eternity

/-! ## Data model (`src/models/StreamActivity.js`, schema) -/

/-- One element of the `streams` array of a `StreamActivity` document. -/
structure StreamSession where
  startTime : Nat
  endTime : Option Nat
  channelId : String
  channelName : String
  /-- Duration in minutes, 0 until the session is closed. -/
  duration : Nat
  day : String
  week : String
  month : String
  interrupted : Bool
  notificationMessageId : Option String
  notificationChannelId : Option String
deriving Repr, DecidableEq

/-- The `currentDailyTotal` rolling-window subdocument. -/
structure DailyTotal where
  day : String
  totalMinutes : Nat
  streamCount : Nat
deriving Repr, DecidableEq

/-- The `currentWeeklyTotal` rolling-window subdocument. -/
structure WeeklyTotal where
  week : String
  totalMinutes : Nat
  streamCount : Nat
deriving Repr, DecidableEq

/-- The `currentMonthlyTotal` rolling-window subdocument. -/
structure MonthlyTotal where
  month : String
  totalMinutes : Nat
  streamCount : Nat
deriving Repr, DecidableEq

/-- A `StreamActivity` document: the aggregate root for one
`(userId, guildId)` pair.  The rolling totals are `Option`s because
`endStream` defensively re-initialises them when absent (migration
support); documents created through the schema always carry them. -/
structure StreamActivity where
  userId : String
  username : String
  guildId : String
  guildName : String
  streams : List StreamSession
  currentDailyTotal : Option DailyTotal
  currentWeeklyTotal : Option WeeklyTotal
  currentMonthlyTotal : Option MonthlyTotal
  totalStreams : Nat
  totalStreamTime : Nat
  lastUpdated : Nat
deriving Repr, DecidableEq

/-- The value of `getTimePeriods()` at some instant: the current day,
ISO-week and month bucket tags. -/
structure TimePeriods where
  day : String
  week : String
  month : String
deriving Repr, DecidableEq

/-- `new StreamActivity({userId, username, guildId, guildName, streams: []})`
with the schema defaults applied (the rolling totals default to the current
period tag with zero totals). -/
def newStreamActivity (periods : TimePeriods) (now : Nat)
    (userId username guildId guildName : String) : StreamActivity where
  userId := userId
  username := username
  guildId := guildId
  guildName := guildName
  streams := []
  currentDailyTotal := some ⟨periods.day, 0, 0⟩
  currentWeeklyTotal := some ⟨periods.week, 0, 0⟩
  currentMonthlyTotal := some ⟨periods.month, 0, 0⟩
  totalStreams := 0
  totalStreamTime := 0
  lastUpdated := now

/-! ## Aggregate methods (`streamActivitySchema.methods`) -/

/-- `streamActivitySchema.methods.startStream(channelId, channelName)`:
push a new open session tagged with the current periods, and initialise any
missing rolling total (`if (!this.currentDailyTotal || !this.currentDailyTotal.day)`). -/
def startStream (periods : TimePeriods) (now : Nat)
    (channelId channelName : String) (a : StreamActivity) : StreamActivity :=
  let newSession : StreamSession :=
    { startTime := now, endTime := none, channelId := channelId
      channelName := channelName, duration := 0
      day := periods.day, week := periods.week, month := periods.month
      interrupted := false
      notificationMessageId := none, notificationChannelId := none }
  { a with
    streams := a.streams ++ [newSession]
    currentDailyTotal :=
      match a.currentDailyTotal with
      | none => some ⟨periods.day, 0, 0⟩
      | some d => if d.day = "" then some ⟨periods.day, 0, 0⟩ else some d
    currentWeeklyTotal :=
      match a.currentWeeklyTotal with
      | none => some ⟨periods.week, 0, 0⟩
      | some w => if w.week = "" then some ⟨periods.week, 0, 0⟩ else some w
    currentMonthlyTotal :=
      match a.currentMonthlyTotal with
      | none => some ⟨periods.month, 0, 0⟩
      | some m => if m.month = "" then some ⟨periods.month, 0, 0⟩ else some m
    lastUpdated := now }

/-- `streamActivitySchema.methods.endStream()`: close the latest session if
it is open, set its duration to `Math.floor((endTime - startTime)/60000)`
minutes, bump the lifetime totals, and accumulate into each rolling window
after resetting any window whose stored period tag differs from the
close-time tag (`currentPeriods`). -/
def endStream (periods : TimePeriods) (now : Nat) (a : StreamActivity) :
    StreamActivity :=
  match a.streams.getLast? with
  | none => a
  | some latestStream =>
    if latestStream.endTime.isSome then a
    else
      let duration := (now - latestStream.startTime) / (1000 * 60)
      let closed := { latestStream with endTime := some now, duration := duration }
      -- migration support: initialise missing totals at the close-time tags
      let daily0 : DailyTotal :=
        match a.currentDailyTotal with
        | none => ⟨periods.day, 0, 0⟩
        | some d => if d.day = "" then ⟨periods.day, 0, 0⟩ else d
      let weekly0 : WeeklyTotal :=
        match a.currentWeeklyTotal with
        | none => ⟨periods.week, 0, 0⟩
        | some w => if w.week = "" then ⟨periods.week, 0, 0⟩ else w
      let monthly0 : MonthlyTotal :=
        match a.currentMonthlyTotal with
        | none => ⟨periods.month, 0, 0⟩
        | some m => if m.month = "" then ⟨periods.month, 0, 0⟩ else m
      -- reset any window whose tag rolled over since the last update
      let daily1 : DailyTotal :=
        if daily0.day ≠ periods.day then ⟨periods.day, 0, 0⟩ else daily0
      let weekly1 : WeeklyTotal :=
        if weekly0.week ≠ periods.week then ⟨periods.week, 0, 0⟩ else weekly0
      let monthly1 : MonthlyTotal :=
        if monthly0.month ≠ periods.month then ⟨periods.month, 0, 0⟩ else monthly0
      { a with
        streams := a.streams.dropLast ++ [closed]
        totalStreamTime := a.totalStreamTime + duration
        totalStreams := a.totalStreams + 1
        currentDailyTotal := some { daily1 with
          totalMinutes := daily1.totalMinutes + duration
          streamCount := daily1.streamCount + 1 }
        currentWeeklyTotal := some { weekly1 with
          totalMinutes := weekly1.totalMinutes + duration
          streamCount := weekly1.streamCount + 1 }
        currentMonthlyTotal := some { monthly1 with
          totalMinutes := monthly1.totalMinutes + duration
          streamCount := monthly1.streamCount + 1 }
        lastUpdated := now }

/-! ## Tracker operations (`src/utils/streamUtils.js`) -/

/-- The closed-session snapshot returned to the notification layer. -/
structure SessionDetails where
  startTime : Nat
  endTime : Option Nat
  duration : Nat
  channelName : String
  interrupted : Bool
deriving Repr, DecidableEq

/-- `endStreamSession(userId, guildId)` — effect on the stored aggregate
plus the returned snapshot.  Returns the aggregate unchanged and `none`
when there is no stream or the latest one is already closed. -/
def endStreamSession (periods : TimePeriods) (now : Nat) (a : StreamActivity) :
    StreamActivity × Option SessionDetails :=
  match a.streams.getLast? with
  | none => (a, none)
  | some latestStream =>
    if latestStream.endTime.isSome then (a, none)
    else
      (endStream periods now a,
       some { startTime := latestStream.startTime
              endTime := some now
              duration := (now - latestStream.startTime) / (1000 * 60)
              channelName := latestStream.channelName
              interrupted := false })

/-- `startStreamSession(...)`: get-or-create the aggregate, *first* end any
existing stream via `endStreamSession`, then `startStream` the new one. -/
def startStreamSession (periods : TimePeriods) (now : Nat)
    (channelId channelName : String) (a : StreamActivity) : StreamActivity :=
  startStream periods now channelId channelName
    (endStreamSession periods now a).1

/-- `markStreamAsInterrupted(userId, guildId)` — effect on the stored
aggregate plus the returned snapshot.  Force-closes the latest open session
with `interrupted = true`; increments only the session counts (lifetime
`totalStreams` and each present rolling window's `streamCount`), never the
duration totals. -/
def markStreamAsInterrupted (now : Nat) (a : StreamActivity) :
    StreamActivity × Option SessionDetails :=
  match a.streams.getLast? with
  | none => (a, none)
  | some latestStream =>
    if latestStream.endTime.isSome then (a, none)
    else
      let duration := (now - latestStream.startTime) / (1000 * 60)
      let closed := { latestStream with
        interrupted := true, endTime := some now, duration := duration }
      let a2 := { a with
        streams := a.streams.dropLast ++ [closed]
        totalStreams := a.totalStreams + 1
        currentDailyTotal := a.currentDailyTotal.map
          (fun d => { d with streamCount := d.streamCount + 1 })
        currentWeeklyTotal := a.currentWeeklyTotal.map
          (fun w => { w with streamCount := w.streamCount + 1 })
        currentMonthlyTotal := a.currentMonthlyTotal.map
          (fun m => { m with streamCount := m.streamCount + 1 })
        lastUpdated := now }
      (a2,
       some { startTime := latestStream.startTime
              endTime := some now
              duration := duration
              channelName := latestStream.channelName
              interrupted := true })

/-! ## Operation sequences and the at-most-one-open-session invariant -/

/-- One tracker call on a fixed `(userId, guildId)` key, together with the
wall-clock instant it happens at. -/
inductive TrackerOp where
  | start (now : Nat) (periods : TimePeriods) (channelId channelName : String)
  | stop (now : Nat) (periods : TimePeriods)
  | interrupt (now : Nat)
deriving Repr

/-- Apply one tracker call to the stored aggregate. -/
def applyTrackerOp (a : StreamActivity) : TrackerOp → StreamActivity
  | .start now periods channelId channelName =>
      startStreamSession periods now channelId channelName a
  | .stop now periods => (endStreamSession periods now a).1
  | .interrupt now => (markStreamAsInterrupted now a).1

/-- Apply a finite sequence of tracker calls, oldest first. -/
def applyTrackerOps (a : StreamActivity) (ops : List TrackerOp) : StreamActivity :=
  ops.foldl applyTrackerOp a

/-- Number of open sessions (absent `endTime`) in a stream list. -/
def openCount (l : List StreamSession) : Nat :=
  l.countP (fun s => s.endTime.isNone)

/-- Every session except possibly the last is closed.  This is the
inductive invariant maintained by the tracker. -/
def openOnlyLast (l : List StreamSession) : Bool :=
  l.dropLast.all (fun s => s.endTime.isSome)

/-- Every session is closed. -/
def allClosed (l : List StreamSession) : Bool :=
  l.all (fun s => s.endTime.isSome)

/-! ## Report aggregation (`generateHourlyReport` / `generateDailyReport`)

The report generator reads `StreamActivity` documents, selects the streams
overlapping the report window `[startTime, endTime]`, deduplicates them,
attributes a per-window duration to each, groups them per user and
paginates the result.  Window bounds are modelled as integers (millisecond
timestamps); `Math.round(x/q)` on an integer `x` is `⌊(2x+q)/(2q)⌋`. -/

/-- JavaScript `Math.round(num/den)` for integer `num` and positive integer
`den`: rounding half-up (toward `+∞`), i.e. `⌊num/den + 1/2⌋`. -/
def mathRoundDiv (num den : Int) : Int :=
  Int.fdiv (2 * num + den) (2 * den)

/-- The overlap test applied to each stream subdocument (the in-memory
re-check mirroring the `$or` store query): the stream started in the
period, or ended in the period, or spans the period (started before and
either still open or ended after). -/
def streamOverlapsPeriod (ws we : Int) (s : StreamSession) : Bool :=
  let st : Int := s.startTime
  let streamStartInPeriod := ws ≤ st && st ≤ we
  let streamEndInPeriod :=
    match s.endTime with
    | some e => ws ≤ (e : Int) && (e : Int) ≤ we
    | none => false
  let streamSpansPeriod :=
    st ≤ ws &&
      (match s.endTime with
       | some e => we ≤ (e : Int)
       | none => true)
  streamStartInPeriod || streamEndInPeriod || streamSpansPeriod

/-- One element of `processedStreams`: a stream annotated with its owner
and the `isIncomplete` flag (`!stream.endTime`). -/
structure ReportStream where
  userId : String
  username : String
  startTime : Int
  endTime : Option Int
  channelId : String
  channelName : String
  interrupted : Bool
  isIncomplete : Bool
  /-- The stored `duration` field, in minutes (`stream.duration || 0`). -/
  duration : Int
deriving Repr, DecidableEq

/-- Build the `processedStreams` element pushed for an overlapping stream. -/
def toReportStream (a : StreamActivity) (s : StreamSession) : ReportStream where
  userId := a.userId
  username := a.username
  startTime := s.startTime
  endTime := s.endTime.map (fun e => (e : Int))
  channelId := s.channelId
  channelName := s.channelName
  interrupted := s.interrupted
  isIncomplete := s.endTime.isNone
  duration := s.duration

/-- One step of the extraction loop.  The per-user `Set` of
``​`${startTime}-${channelId}`​`` identifiers in `userStreamCounts` is
modelled as one list of `(userId, startTime, channelId)` triples (the
timestamp prefix of the identifier is unambiguous, so the pair equals the
string identity). -/
def extractStep (ws we : Int) (a : StreamActivity)
    (acc : List (String × Nat × String) × List ReportStream)
    (s : StreamSession) : List (String × Nat × String) × List ReportStream :=
  if streamOverlapsPeriod ws we s then
    let streamId := (a.userId, s.startTime, s.channelId)
    if acc.1.contains streamId then acc
    else (acc.1 ++ [streamId], acc.2 ++ [toReportStream a s])
  else acc

/-- The extraction/deduplication pass over the queried documents
(`for (const activity of streamActivities) for (const stream of activity.streams) …`). -/
def extractProcessedStreams (ws we : Int) (docs : List StreamActivity) :
    List ReportStream :=
  (docs.foldl (fun acc a => a.streams.foldl (extractStep ws we a) acc)
    ([], [])).2

/-- Stable insertion of `x` into a list already sorted by `key`,
descending. -/
def insertDescBy (key : α → Int) (x : α) : List α → List α
  | [] => [x]
  | y :: ys => if key y ≤ key x then x :: y :: ys else y :: insertDescBy key x ys

/-- `array.sort((a, b) => key(b) - key(a))`: stable sort, descending by
`key`. -/
def sortDescBy (key : α → Int) : List α → List α
  | [] => []
  | x :: xs => insertDescBy key x (sortDescBy key xs)

/-- The duration in seconds the report attributes to one processed stream
within the window `[ws, we]` (the `durationSec` computation): an
incomplete stream runs from `max(start, ws)` to `we`; a complete stream
with a positive stored `duration` contributes `duration * 60`; a complete
stream with zero stored `duration` is clipped to the window. -/
def reportStreamDurationSec (ws we : Int) (s : ReportStream) : Int :=
  if s.isIncomplete then
    let streamStart := max s.startTime ws
    max 0 (mathRoundDiv (we - streamStart) 1000)
  else if 0 < s.duration then
    s.duration * 60
  else
    let streamStart := max s.startTime ws
    let streamEnd :=
      match s.endTime with
      | some e => if e < we then e else we
      | none => we
    max 0 (mathRoundDiv (streamEnd - streamStart) 1000)

/-- Modelled from the spec's clipping rule (§4.4), for comparison with the
source's `reportStreamDurationSec`:
`clippedStart = max(start, windowStart)`,
`clippedEnd = min(end ?? windowEnd, windowEnd)`,
`clippedDurationSeconds = round((clippedEnd - clippedStart)/1000)` floored
at 0. -/
def clippedDurationSecondsSpec (ws we : Int) (start : Int)
    (endT : Option Int) : Int :=
  max 0 (mathRoundDiv (min (endT.getD we) we - max start ws) 1000)

/-! ### Pagination -/

/-- `MAX_STREAMS_PER_PAGE`. -/
def MAX_STREAMS_PER_PAGE : Nat := 6

/-- One element of `allStreamEntries`: a user header followed by that
user's stream details. -/
inductive Entry where
  | userHeader (username : String) (streamCount : Nat) (totalDuration : Int)
      (incompleteCount : Nat)
  | stream (s : ReportStream)
deriving Repr, DecidableEq

/-- `entry.type === 'user-header'`. -/
def Entry.isUserHeader : Entry → Bool
  | .userHeader .. => true
  | .stream _ => false

/-- The page-building loop (`for (let i = 0; i < allStreamEntries.length; i++)`),
tracking which entries land on which page.  A new page begins exactly when
`streamsOnCurrentPage >= MAX_STREAMS_PER_PAGE && entry.type === 'user-header'`;
stream entries increment `streamsOnCurrentPage`, headers do not. -/
def pageLoop : List Entry → List Entry → Nat → List (List Entry)
  | [], currentPage, _ => [currentPage]
  | e :: rest, currentPage, streamsOnCurrentPage =>
    if MAX_STREAMS_PER_PAGE ≤ streamsOnCurrentPage && e.isUserHeader then
      currentPage :: pageLoop rest [e] 0
    else
      pageLoop rest (currentPage ++ [e])
        (if e.isUserHeader then streamsOnCurrentPage else streamsOnCurrentPage + 1)

/-- The pages produced for a linearised entry sequence (the first entry
always opens page 1, since `currentEmbed` starts out null). -/
def buildReportPages : List Entry → List (List Entry)
  | [] => []
  | e :: rest => pageLoop rest [e] (if e.isUserHeader then 0 else 1)

/-- A page does not split a user's block when it starts at a user header. -/
def pageStartsWithHeader : List Entry → Bool
  | e :: _ => e.isUserHeader
  | [] => false

/-! ### The report functions -/

/-- One embed returned by a report function. -/
inductive ReportPage where
  /-- The single `No Streams` embed. -/
  | noStreams
  /-- The `⚠️ Error Generating Report` embed built in the catch block. -/
  | errorReport (message : String)
  /-- A content page of entries.  `part_001`'s report functions never
  build one: after the empty check they evaluate the undeclared identifier
  `pageCount` (hourly line 229, daily line 616), and the resulting
  ReferenceError is caught by the surrounding try/catch. -/
  | content (entries : List Entry)
deriving Repr, DecidableEq

/-- The body of `generateHourlyReport` inside the `try`: the store query
may reject; otherwise the overlapping streams are extracted, deduplicated
and sorted newest-first; an empty result returns the single `No Streams`
embed; a non-empty result reaches the `logger.addRequestStep(requestId,
'creating-pages', { pageCount, … })` call at line 229, which reads the
undeclared identifier `pageCount` and raises a ReferenceError before any
page is built. -/
def generateHourlyReportBody (ws we : Int)
    (findResult : Except String (List StreamActivity)) :
    Except String (List ReportPage) :=
  match findResult with
  | Except.error message => Except.error message
  | Except.ok streamActivities =>
    let processedStreams :=
      sortDescBy (fun s => s.startTime)
        (extractProcessedStreams ws we streamActivities)
    if processedStreams.isEmpty then Except.ok [ReportPage.noStreams]
    else Except.error "pageCount is not defined"

/-- `generateHourlyReport(guildId, startTime)`: the body's exception is
caught and converted to a single error-report embed. -/
def generateHourlyReport (ws we : Int)
    (findResult : Except String (List StreamActivity)) : List ReportPage :=
  match generateHourlyReportBody ws we findResult with
  | .ok embeds => embeds
  | .error message => [ReportPage.errorReport message]

/-- The body of `generateDailyReport` inside the `try`: additionally
fetches the guild config (for the timezone) first, which may also reject;
then proceeds exactly as the hourly body, including the undeclared
`pageCount` read at line 616. -/
def generateDailyReportBody (ws we : Int)
    (configResult : Except String Unit)
    (findResult : Except String (List StreamActivity)) :
    Except String (List ReportPage) :=
  match configResult with
  | Except.error message => Except.error message
  | Except.ok _guildConfig =>
    match findResult with
    | Except.error message => Except.error message
    | Except.ok streamActivities =>
      let processedStreams :=
        sortDescBy (fun s => s.startTime)
          (extractProcessedStreams ws we streamActivities)
      if processedStreams.isEmpty then Except.ok [ReportPage.noStreams]
      else Except.error "pageCount is not defined"

/-- `generateDailyReport(guildId)` with the previous-day window
`[ws, we]` already derived from the guild's timezone. -/
def generateDailyReport (ws we : Int) (configResult : Except String Unit)
    (findResult : Except String (List StreamActivity)) : List ReportPage :=
  match generateDailyReportBody ws we configResult findResult with
  | .ok embeds => embeds
  | .error message => [ReportPage.errorReport message]

/-! ## Leaderboard (`getServerStreamLeaderboard`) -/

/-- One entry of the computed `leaderboardData`. -/
structure LeaderboardEntry where
  userId : String
  username : String
  streamTime : Nat
  streamCount : Nat
deriving Repr, DecidableEq

/-- The `switch(period)` selecting which stats a user contributes. -/
def leaderboardEntryOf (period : String) (user : StreamActivity) :
    LeaderboardEntry :=
  let (streamTime, streamCount) :=
    match period with
    | "day" =>
      match user.currentDailyTotal with
      | some d => (d.totalMinutes, d.streamCount)
      | none => (0, 0)
    | "week" =>
      match user.currentWeeklyTotal with
      | some w => (w.totalMinutes, w.streamCount)
      | none => (0, 0)
    | "month" =>
      match user.currentMonthlyTotal with
      | some m => (m.totalMinutes, m.streamCount)
      | none => (0, 0)
    | _ => (user.totalStreamTime, user.totalStreams)
  { userId := user.userId, username := user.username
    streamTime := streamTime, streamCount := streamCount }

/-- `getServerStreamLeaderboard(guildId, period, limit)` applied to the
guild's activity documents: map each user to its period stats, drop the
users with no stream time, sort by stream time descending, and keep the
first `limit`. -/
def getServerStreamLeaderboard (period : String) (limit : Nat)
    (users : List StreamActivity) : List LeaderboardEntry :=
  if users.isEmpty then []
  else
    let leaderboardData := users.map (leaderboardEntryOf period)
    (sortDescBy (fun u => (u.streamTime : Int))
      (leaderboardData.filter (fun u => 0 < u.streamTime))).take limit

/-! ## Crash recovery (`checkPreviousSessionStreams`, `src/index.js`) -/

/-- The `member.voice` state of a resolved guild member. -/
structure VoiceState where
  channelId : Option String
  streaming : Bool

/-- The external collaborators recovery talks to: `client.guilds.cache`,
`client.users.fetch`, `guild.members.fetch` (presence oracle), and
whether the store rejects inside `markStreamAsInterrupted` for a given
`(userId, guildId)` key. -/
structure RecoveryEnv where
  guildKnown : String → Bool
  userFetch : String → Bool
  memberFetch : String → String → Option VoiceState
  interruptThrows : String → String → Bool

/-- One element of the list returned by `getAllActiveStreams`. -/
structure ActiveStreamRec where
  userId : String
  username : String
  guildId : String
  guildName : String
  channelId : String
  channelName : String
  startTime : Nat
deriving Repr, DecidableEq

/-- The record contributed by one activity inside the `reduce`: only the
latest stream is inspected, and only when it is open. -/
def activeStreamRecOf (a : StreamActivity) : Option ActiveStreamRec :=
  match a.streams.getLast? with
  | some latestStream =>
    if latestStream.endTime.isNone then
      some { userId := a.userId, username := a.username
             guildId := a.guildId, guildName := a.guildName
             channelId := latestStream.channelId
             channelName := latestStream.channelName
             startTime := latestStream.startTime }
    else none
  | none => none

/-- `getAllActiveStreams()`: find the documents with some open stream
(`$elemMatch: {endTime: null}`), then collect the open latest streams. -/
def getAllActiveStreams (store : List StreamActivity) : List ActiveStreamRec :=
  (store.filter (fun a => a.streams.any (fun s => s.endTime.isNone))).filterMap
    activeStreamRecOf

/-- `StreamActivity.findOne({userId, guildId})`. -/
def findOneDoc (userId guildId : String) (store : List StreamActivity) :
    Option StreamActivity :=
  store.find? (fun b => b.userId == userId && b.guildId == guildId)

/-- Persist a modified document: replace the first document with the given
key. -/
def replaceDoc (userId guildId : String) (a2 : StreamActivity) :
    List StreamActivity → List StreamActivity
  | [] => []
  | b :: rest =>
    if b.userId == userId && b.guildId == guildId then a2 :: rest
    else b :: replaceDoc userId guildId a2 rest

/-- `markStreamAsInterrupted(userId, guildId)` as a store operation:
`findOne`, apply the aggregate-level update, `save`. -/
def markStreamAsInterruptedStore (now : Nat) (userId guildId : String)
    (store : List StreamActivity) :
    List StreamActivity × Option SessionDetails :=
  match findOneDoc userId guildId store with
  | none => (store, none)
  | some a =>
    (replaceDoc userId guildId (markStreamAsInterrupted now a).1 store,
     (markStreamAsInterrupted now a).2)

/-- A `markStreamAsInterrupted` call from the recovery loop: the store may
reject, in which case the error propagates out of the `for` loop. -/
def tryMarkInterrupted (env : RecoveryEnv) (now : Nat)
    (userId guildId : String) (store : List StreamActivity) :
    Except Unit (List StreamActivity) :=
  if env.interruptThrows userId guildId then Except.error ()
  else Except.ok (markStreamAsInterruptedStore now userId guildId store).1

/-- The `isCurrentlyStreaming` check (index.js lines 294-297): the member
resolved, is in a voice channel, is streaming, and that channel is exactly
the one recorded on the open session. -/
def isCurrentlyStreaming (member : Option VoiceState) (channelId : String) :
    Bool :=
  match member with
  | none => false
  | some v => v.channelId.isSome && v.streaming && v.channelId == some channelId

/-- The decision recovery makes for one recorded open stream: leave it
open only when the member is currently streaming in exactly the recorded
channel. -/
def recoveryLeavesOpen (env : RecoveryEnv) (rec : ActiveStreamRec) : Bool :=
  env.guildKnown rec.guildId && env.userFetch rec.userId &&
    isCurrentlyStreaming (env.memberFetch rec.guildId rec.userId) rec.channelId

/-- The body of the recovery `for` loop for one recorded open stream:
guild unknown → interrupt; user unresolvable → interrupt; not currently
streaming in the recorded channel → interrupt (followed by a notification
send, which has its own try/catch and never touches the store); else leave
the session open.  Only the store call can throw. -/
def processActiveStream (env : RecoveryEnv) (now : Nat)
    (store : List StreamActivity) (rec : ActiveStreamRec) :
    Except Unit (List StreamActivity) :=
  if ¬ env.guildKnown rec.guildId then
    tryMarkInterrupted env now rec.userId rec.guildId store
  else if ¬ env.userFetch rec.userId then
    tryMarkInterrupted env now rec.userId rec.guildId store
  else if ¬ isCurrentlyStreaming (env.memberFetch rec.guildId rec.userId)
      rec.channelId then
    tryMarkInterrupted env now rec.userId rec.guildId store
  else
    Except.ok store

/-- The recovery loop: sequential, inside one `try`; a rejection aborts
the remaining iterations, keeping the store mutations made so far. -/
def runRecoveryLoop (env : RecoveryEnv) (now : Nat) :
    List ActiveStreamRec → List StreamActivity → List StreamActivity
  | [], store => store
  | rec :: rest, store =>
    match processActiveStream env now store rec with
    | .ok store2 => runRecoveryLoop env now rest store2
    | .error _ => store

/-- `checkPreviousSessionStreams()` at startup. -/
def checkPreviousSessionStreams (env : RecoveryEnv) (now : Nat)
    (store : List StreamActivity) : List StreamActivity :=
  runRecoveryLoop env now (getAllActiveStreams store) store

/-- The `(userId, guildId)` key of a document. -/
def docKey (a : StreamActivity) : String × String :=
  (a.userId, a.guildId)

/-! ## Concrete fixtures

Times below are milliseconds from a 10:00 origin: 10:50 is `3000000`,
11:00 is `3600000`, 11:10 is `4200000`, 12:00 is `7200000`. -/

/-- An aggregate with a single open session started at 10:50. -/
def clipCexOpenDoc : StreamActivity :=
  startStream ⟨"2025-04-29", "2025-18", "2025-04"⟩ 3000000 "c1" "general"
    (newStreamActivity ⟨"2025-04-29", "2025-18", "2025-04"⟩ 0
      "u1" "alice" "g1" "guild")

/-- The same aggregate after `endStream` closes the session at 11:10; its
stored duration is 20 minutes. -/
def clipCexClosedDoc : StreamActivity :=
  endStream ⟨"2025-04-29", "2025-18", "2025-04"⟩ 4200000 clipCexOpenDoc

/-- The closed 10:50–11:10 session as stored. -/
def clipCexSession : StreamSession where
  startTime := 3000000
  endTime := some 4200000
  channelId := "c1"
  channelName := "general"
  duration := 20
  day := "2025-04-29"
  week := "2025-18"
  month := "2025-04"
  interrupted := false
  notificationMessageId := none
  notificationChannelId := none

/-- An aggregate with a single open session started at time 0. -/
def durCexDoc : StreamActivity :=
  startStream ⟨"2025-04-29", "2025-18", "2025-04"⟩ 0 "c1" "general"
    (newStreamActivity ⟨"2025-04-29", "2025-18", "2025-04"⟩ 0
      "u1" "alice" "g1" "guild")

/-- Two aggregates, each with one open session, in two different guilds. -/
def recoveryCexStore : List StreamActivity :=
  [startStream ⟨"2025-04-29", "2025-18", "2025-04"⟩ 1000 "cA" "alpha"
     (newStreamActivity ⟨"2025-04-29", "2025-18", "2025-04"⟩ 0
       "u1" "alice" "g1" "guild-one"),
   startStream ⟨"2025-04-29", "2025-18", "2025-04"⟩ 2000 "cB" "beta"
     (newStreamActivity ⟨"2025-04-29", "2025-18", "2025-04"⟩ 0
       "u2" "bob" "g2" "guild-two")]

/-- Both guilds are gone after the restart, so both open sessions must be
interrupted; the store rejects the `markStreamAsInterrupted` save for
`u1` only. -/
def recoveryCexEnv : RecoveryEnv where
  guildKnown := fun _ => false
  userFetch := fun _ => true
  memberFetch := fun _ _ => none
  interruptThrows := fun userId _ => userId == "u1"

/-- The same environment with a healthy store. -/
def recoveryCexEnvNoThrow : RecoveryEnv where
  guildKnown := fun _ => false
  userFetch := fun _ => true
  memberFetch := fun _ _ => none
  interruptThrows := fun _ _ => false

/-- A session-detail entry for pagination examples. -/
def sampleStreamEntry (k : Nat) : Entry :=
  Entry.stream
    { userId := "u1", username := "alice", startTime := (k : Int) * 60000
      endTime := some ((k : Int) * 60000 + 30000), channelId := "c1"
      channelName := "general", interrupted := false, isIncomplete := false
      duration := 0 }

/-- A session-detail entry belonging to the second user. -/
def sampleStreamEntryB (k : Nat) : Entry :=
  Entry.stream
    { userId := "u2", username := "bob", startTime := (k : Int) * 60000
      endTime := some ((k : Int) * 60000 + 30000), channelId := "c2"
      channelName := "games", interrupted := false, isIncomplete := false
      duration := 0 }

/-- The linearised entries for a user with 8 sessions followed by a user
with 2 sessions. -/
def paginationCexEntries : List Entry :=
  Entry.userHeader "alice" 8 240 0 ::
    (List.range 8).map sampleStreamEntry ++
      (Entry.userHeader "bob" 2 60 0 :: (List.range 2).map sampleStreamEntryB)

/-- The `ActiveStreamRec` recovery sees for an aggregate `a` whose latest
(open) session is `s`. -/
def recoveredStreamRec (a : StreamActivity) (s : StreamSession) :
    ActiveStreamRec where
  userId := a.userId
  username := a.username
  guildId := a.guildId
  guildName := a.guildName
  channelId := s.channelId
  channelName := s.channelName
  startTime := s.startTime

/-- After the restart the member is streaming, but in channel `cB` rather
than the recorded channel; the store is healthy. -/
def channelSwitchEnv : RecoveryEnv where
  guildKnown := fun _ => true
  userFetch := fun _ => true
  memberFetch := fun _ _ => some { channelId := some "cB", streaming := true }
  interruptThrows := fun _ _ => false

/-- A user whose only session was interrupted: `streamCount` is positive
but every duration total is 0. -/
def bobInterruptedDoc : StreamActivity :=
  (markStreamAsInterrupted 600000
    (startStream ⟨"2025-04-29", "2025-18", "2025-04"⟩ 0 "c2" "games"
      (newStreamActivity ⟨"2025-04-29", "2025-18", "2025-04"⟩ 0
        "u2" "bob" "g1" "guild"))).1

end Eternity

namespace Eternity

theorem openOnlyLast_of_allClosed {l : List StreamSession}
    (h : allClosed l = true) : openOnlyLast l = true := by
  simp only [allClosed, List.all_eq_true] at h
  simp only [openOnlyLast, List.all_eq_true]
  exact fun s hs => h s (List.dropLast_subset l hs)

theorem openCount_le_one_of_openOnlyLast {l : List StreamSession}
    (h : openOnlyLast l = true) : openCount l ≤ 1 := by
  rcases List.eq_nil_or_concat l with h0 | ⟨xs, x, h0⟩
  · simp [openCount, h0]
  · subst h0
    have hxs : List.countP (fun s => s.endTime.isNone) xs = 0 := by
      rw [List.countP_eq_zero]
      intro s hs
      have hall := List.all_eq_true.mp
        (by simpa [openOnlyLast, List.concat_eq_append, List.dropLast_concat] using h) s hs
      simp only [Option.isNone_iff_eq_none, decide_eq_true_eq]
      intro hnone
      rw [hnone] at hall
      simp at hall
    simp only [openCount, List.concat_eq_append, List.countP_append, hxs, Nat.zero_add]
    by_cases hx : x.endTime.isNone <;> simp [List.countP_cons, hx]

theorem allClosed_endStream (periods : TimePeriods) (now : Nat)
    (a : StreamActivity) (h : openOnlyLast a.streams = true) :
    allClosed (endStream periods now a).streams = true := by
  rcases List.eq_nil_or_concat a.streams with h0 | ⟨xs, x, h0⟩
  · simp [endStream, h0, allClosed]
  · rw [List.concat_eq_append] at h0
    have hxs : xs.all (fun s => s.endTime.isSome) = true := by
      simpa [openOnlyLast, h0, List.dropLast_concat] using h
    by_cases hx : x.endTime.isSome
    · simp [endStream, h0, List.getLast?_concat, hx, allClosed, List.all_append, hxs]
    · simp [endStream, h0, List.getLast?_concat, hx, allClosed, List.all_append,
        List.dropLast_concat, hxs]

theorem allClosed_endStreamSession_fst (periods : TimePeriods) (now : Nat)
    (a : StreamActivity) (h : openOnlyLast a.streams = true) :
    allClosed (endStreamSession periods now a).1.streams = true := by
  rcases List.eq_nil_or_concat a.streams with h0 | ⟨xs, x, h0⟩
  · simp [endStreamSession, h0, allClosed]
  · rw [List.concat_eq_append] at h0
    have hxs : xs.all (fun s => s.endTime.isSome) = true := by
      simpa [openOnlyLast, h0, List.dropLast_concat] using h
    by_cases hx : x.endTime.isSome
    · simp [endStreamSession, h0, List.getLast?_concat, hx, allClosed,
        List.all_append, hxs]
    · simpa [endStreamSession, h0, List.getLast?_concat, hx] using
        allClosed_endStream periods now a h

theorem allClosed_markStreamAsInterrupted_fst (now : Nat)
    (a : StreamActivity) (h : openOnlyLast a.streams = true) :
    allClosed (markStreamAsInterrupted now a).1.streams = true := by
  rcases List.eq_nil_or_concat a.streams with h0 | ⟨xs, x, h0⟩
  · simp [markStreamAsInterrupted, h0, allClosed]
  · rw [List.concat_eq_append] at h0
    have hxs : xs.all (fun s => s.endTime.isSome) = true := by
      simpa [openOnlyLast, h0, List.dropLast_concat] using h
    by_cases hx : x.endTime.isSome
    · simp [markStreamAsInterrupted, h0, List.getLast?_concat, hx, allClosed,
        List.all_append, hxs]
    · simp [markStreamAsInterrupted, h0, List.getLast?_concat, hx, allClosed,
        List.all_append, List.dropLast_concat, hxs]

theorem openOnlyLast_startStreamSession (periods : TimePeriods) (now : Nat)
    (channelId channelName : String) (a : StreamActivity)
    (h : openOnlyLast a.streams = true) :
    openOnlyLast (startStreamSession periods now channelId channelName a).streams
      = true := by
  have hac := allClosed_endStreamSession_fst periods now a h
  simp only [startStreamSession, startStream, openOnlyLast, List.dropLast_concat]
  simpa [allClosed] using hac

theorem openOnlyLast_applyTrackerOp (a : StreamActivity) (op : TrackerOp)
    (h : openOnlyLast a.streams = true) :
    openOnlyLast (applyTrackerOp a op).streams = true := by
  cases op with
  | start now periods channelId channelName =>
      exact openOnlyLast_startStreamSession periods now channelId channelName a h
  | stop now periods =>
      exact openOnlyLast_of_allClosed (allClosed_endStreamSession_fst periods now a h)
  | interrupt now =>
      exact openOnlyLast_of_allClosed (allClosed_markStreamAsInterrupted_fst now a h)

theorem openOnlyLast_applyTrackerOps (ops : List TrackerOp) (a : StreamActivity)
    (h : openOnlyLast a.streams = true) :
    openOnlyLast (applyTrackerOps a ops).streams = true := by
  induction ops generalizing a with
  | nil => simpa [applyTrackerOps]
  | cons op rest ih =>
      show openOnlyLast (List.foldl applyTrackerOp a (op :: rest)).streams = true
      rw [List.foldl_cons]
      exact ih _ (openOnlyLast_applyTrackerOp a op h)

/-- **C1**: for any finite sequence of `startSession` / `endSession` /
`markInterrupted` calls on one `(userId, guildId)` aggregate, after each
call at most one session in the stream list has an absent `endTime` (the
open session, if any, is the last one); and `startStreamSession` is by
definition `endStreamSession` (a no-op when nothing is open) followed by
appending the new open session. -/
theorem atMostOneOpenSession (a : StreamActivity) (ops : List TrackerOp)
    (h : openOnlyLast a.streams = true) :
    openOnlyLast (applyTrackerOps a ops).streams = true ∧
    openCount (applyTrackerOps a ops).streams ≤ 1 ∧
    ∀ (periods : TimePeriods) (now : Nat) (channelId channelName : String)
      (b : StreamActivity),
      startStreamSession periods now channelId channelName b =
        startStream periods now channelId channelName
          (endStreamSession periods now b).1 := by
  refine ⟨openOnlyLast_applyTrackerOps ops a h,
    openCount_le_one_of_openOnlyLast (openOnlyLast_applyTrackerOps ops a h),
    fun _ _ _ _ _ => rfl⟩

/-- Concrete run witnessing `atMostOneOpenSession`: a fresh aggregate taken
through start, interrupt, start (while open), stop. -/
theorem atMostOneOpenSession_witness :
    openOnlyLast (newStreamActivity ⟨"2025-04-29", "2025-18", "2025-04"⟩ 0
        "u1" "alice" "g1" "guild").streams = true ∧
    openCount (applyTrackerOps
      (newStreamActivity ⟨"2025-04-29", "2025-18", "2025-04"⟩ 0
        "u1" "alice" "g1" "guild")
      [TrackerOp.start 60000 ⟨"2025-04-29", "2025-18", "2025-04"⟩ "c1" "general",
       TrackerOp.interrupt 120000,
       TrackerOp.start 180000 ⟨"2025-04-29", "2025-18", "2025-04"⟩ "c2" "games",
       TrackerOp.start 240000 ⟨"2025-04-30", "2025-18", "2025-04"⟩ "c3" "music",
       TrackerOp.stop 300000 ⟨"2025-04-30", "2025-18", "2025-04"⟩]).streams ≤ 1 :=
  ⟨by decide,
   (atMostOneOpenSession _ _ (by decide)).2.1⟩

end Eternity

namespace Eternity

/-- **C3**: a `markInterrupted` call that closes an open session leaves
`totalStreamTime` and every rolling window's `totalMinutes` unchanged,
while `totalStreams` and every rolling window's `streamCount` increase by
exactly 1. -/
theorem interruptedDoesNotInflateTotals (now : Nat) (a : StreamActivity)
    (s : StreamSession) (d : DailyTotal) (w : WeeklyTotal) (m : MonthlyTotal)
    (hlast : a.streams.getLast? = some s) (hopen : s.endTime = none)
    (hd : a.currentDailyTotal = some d)
    (hw : a.currentWeeklyTotal = some w)
    (hm : a.currentMonthlyTotal = some m) :
    (markStreamAsInterrupted now a).1.totalStreamTime = a.totalStreamTime ∧
    (markStreamAsInterrupted now a).1.totalStreams = a.totalStreams + 1 ∧
    (markStreamAsInterrupted now a).1.currentDailyTotal =
      some ⟨d.day, d.totalMinutes, d.streamCount + 1⟩ ∧
    (markStreamAsInterrupted now a).1.currentWeeklyTotal =
      some ⟨w.week, w.totalMinutes, w.streamCount + 1⟩ ∧
    (markStreamAsInterrupted now a).1.currentMonthlyTotal =
      some ⟨m.month, m.totalMinutes, m.streamCount + 1⟩ := by
  simp [markStreamAsInterrupted, hlast, hopen, hd, hw, hm]

/-- Concrete run witnessing `interruptedDoesNotInflateTotals`. -/
theorem interruptedDoesNotInflateTotals_witness :
    (markStreamAsInterrupted 60000 durCexDoc).1.totalStreamTime =
      durCexDoc.totalStreamTime ∧
    (markStreamAsInterrupted 60000 durCexDoc).1.totalStreams =
      durCexDoc.totalStreams + 1 ∧
    (markStreamAsInterrupted 60000 durCexDoc).1.currentDailyTotal =
      some ⟨"2025-04-29", 0, 0 + 1⟩ := by
  have h := interruptedDoesNotInflateTotals 60000 durCexDoc
    ⟨0, none, "c1", "general", 0, "2025-04-29", "2025-18", "2025-04",
      false, none, none⟩
    ⟨"2025-04-29", 0, 0⟩ ⟨"2025-18", 0, 0⟩ ⟨"2025-04", 0, 0⟩
    (by decide) (by decide) (by decide) (by decide) (by decide)
  exact ⟨h.1, h.2.1, h.2.2.1⟩

/-- **C4**: when `endStream` closes a session and a rolling window's
stored period tag differs from the close-time tag, that window ends up as
`{newTag, totalMinutes: duration, streamCount: 1}` — reset before
accumulating, not accumulated onto the stale value. -/
theorem rollingWindowReset (periods : TimePeriods) (now : Nat)
    (a : StreamActivity) (s : StreamSession)
    (hlast : a.streams.getLast? = some s) (hopen : s.endTime = none) :
    (∀ d : DailyTotal, a.currentDailyTotal = some d → d.day ≠ periods.day →
      (endStream periods now a).currentDailyTotal =
        some ⟨periods.day, (now - s.startTime) / (1000 * 60), 1⟩) ∧
    (∀ w : WeeklyTotal, a.currentWeeklyTotal = some w → w.week ≠ periods.week →
      (endStream periods now a).currentWeeklyTotal =
        some ⟨periods.week, (now - s.startTime) / (1000 * 60), 1⟩) ∧
    (∀ m : MonthlyTotal, a.currentMonthlyTotal = some m → m.month ≠ periods.month →
      (endStream periods now a).currentMonthlyTotal =
        some ⟨periods.month, (now - s.startTime) / (1000 * 60), 1⟩) := by
  refine ⟨fun d hd hne => ?_, fun w hw hne => ?_, fun m hm hne => ?_⟩
  · by_cases h0 : d.day = ""
    · simp [endStream, hlast, hopen, hd, h0]
    · simp [endStream, hlast, hopen, hd, h0, hne]
  · by_cases h0 : w.week = ""
    · simp [endStream, hlast, hopen, hw, h0]
    · simp [endStream, hlast, hopen, hw, h0, hne]
  · by_cases h0 : m.month = ""
    · simp [endStream, hlast, hopen, hm, h0]
    · simp [endStream, hlast, hopen, hm, h0, hne]

/-- Concrete run witnessing `rollingWindowReset`: a daily window keyed
`2025-04-29` closing a 20-minute session on `2025-04-30`. -/
theorem rollingWindowReset_witness :
    (endStream ⟨"2025-04-30", "2025-18", "2025-04"⟩ 4200000
        clipCexOpenDoc).currentDailyTotal =
      some ⟨"2025-04-30", (4200000 - 3000000) / (1000 * 60), 1⟩ :=
  (rollingWindowReset ⟨"2025-04-30", "2025-18", "2025-04"⟩ 4200000
      clipCexOpenDoc
      ⟨3000000, none, "c1", "general", 0, "2025-04-29", "2025-18", "2025-04",
        false, none, none⟩
      (by decide) (by decide)).1
    ⟨"2025-04-29", 0, 0⟩ (by decide) (by decide)

/-- **C6 counterexample**: closing at `T1 = 90000` a session started at
`T0 = 0` records `durationMinutes = 1` (`Math.floor(90000/60000)`), while
rounding to the nearest minute as the claim states would give 2. -/
theorem durationRounding_counterexample :
    ((endStream ⟨"2025-04-29", "2025-18", "2025-04"⟩ 90000
        durCexDoc).streams.getLast?.map (fun s => s.duration)) = some 1 ∧
    mathRoundDiv 90000 (1000 * 60) = 2 ∧ (1 : Nat) ≠ 2 := by decide

/-- **C6 amended**: the recorded `durationMinutes` of a session closed by
`endStream` is `⌊(T1 - T0) / 60000⌋` — the elapsed milliseconds divided by
60000 rounded *down*, not to the nearest minute. -/
theorem durationFloorOfElapsed (periods : TimePeriods) (now : Nat)
    (a : StreamActivity) (s : StreamSession)
    (hlast : a.streams.getLast? = some s) (hopen : s.endTime = none) :
    (endStream periods now a).streams.getLast? =
      some { s with endTime := some now
                    duration := (now - s.startTime) / (1000 * 60) } := by
  rcases List.eq_nil_or_concat a.streams with h0 | ⟨xs, x, h0⟩
  · rw [h0] at hlast; simp at hlast
  · rw [List.concat_eq_append] at h0
    have hx : x = s := by
      rw [h0, List.getLast?_concat] at hlast
      exact Option.some.inj hlast
    subst hx
    simp [endStream, h0, List.getLast?_concat, hopen, List.dropLast_concat]

/-- Concrete run witnessing `durationFloorOfElapsed`. -/
theorem durationFloorOfElapsed_witness :
    (endStream ⟨"2025-04-29", "2025-18", "2025-04"⟩ 90000
        durCexDoc).streams.getLast? =
      some ⟨0, some 90000, "c1", "general", (90000 - 0) / (1000 * 60),
        "2025-04-29", "2025-18", "2025-04", false, none, none⟩ :=
  durationFloorOfElapsed ⟨"2025-04-29", "2025-18", "2025-04"⟩ 90000 durCexDoc
    ⟨0, none, "c1", "general", 0, "2025-04-29", "2025-18", "2025-04",
      false, none, none⟩
    (by decide) (by decide)

/-- **C2 counterexample**: the 10:50–11:10 session closed by `endStream`
is stored with `duration = 20` minutes; it overlaps both hourly windows,
and the report attributes `20 * 60 = 1200` seconds to *each* window (the
stored-duration shortcut for complete streams), while the spec's clipping
formula gives 600 for each — so the attributed duration is not the clipped
one, and the two windows' contributions sum to 2400 s, not the session's
true 1200 s. -/
theorem reportClipping_counterexample :
    clipCexClosedDoc.streams.getLast? = some clipCexSession ∧
    streamOverlapsPeriod 0 3600000 clipCexSession = true ∧
    streamOverlapsPeriod 3600000 7200000 clipCexSession = true ∧
    reportStreamDurationSec 0 3600000
      (toReportStream clipCexClosedDoc clipCexSession) = 1200 ∧
    reportStreamDurationSec 3600000 7200000
      (toReportStream clipCexClosedDoc clipCexSession) = 1200 ∧
    clippedDurationSecondsSpec 0 3600000 3000000 (some 4200000) = 600 ∧
    clippedDurationSecondsSpec 3600000 7200000 3000000 (some 4200000) = 600 ∧
    (1200 : Int) ≠ 600 := by decide

/-- **C2 amended**: the duration the report attributes to a session within
`[ws, we]` equals the spec's clipping formula only when the session has no
positive stored duration; a complete session with stored `durationMinutes
> 0` contributes its full `durationMinutes * 60` seconds to every window
it overlaps, regardless of the window bounds. -/
theorem reportDurationAttribution (ws we : Int) (s : ReportStream)
    (hcoh : s.isIncomplete = s.endTime.isNone) :
    reportStreamDurationSec ws we s =
      if 0 < s.duration ∧ s.endTime.isSome then s.duration * 60
      else clippedDurationSecondsSpec ws we s.startTime s.endTime := by
  rcases he : s.endTime with _ | e
  · have hinc : s.isIncomplete = true := by rw [hcoh, he]; rfl
    simp [reportStreamDurationSec, clippedDurationSecondsSpec, hinc, he]
  · have hinc : s.isIncomplete = false := by rw [hcoh, he]; rfl
    by_cases hdur : 0 < s.duration
    · simp [reportStreamDurationSec, hinc, hdur, he]
    · have h1 : (if e < we then e else we) = min e we := by
        rcases lt_trichotomy e we with h | h | h <;> simp [min_def] <;> omega
      simp [reportStreamDurationSec, clippedDurationSecondsSpec, hinc, hdur,
        he, h1]

/-- Concrete run witnessing `reportDurationAttribution`: the stored-20-minute
session gets 1200 s attributed inside the 10:00–11:00 window. -/
theorem reportDurationAttribution_witness :
    reportStreamDurationSec 0 3600000
      (toReportStream clipCexClosedDoc clipCexSession) = 20 * 60 := by
  rw [reportDurationAttribution 0 3600000
    (toReportStream clipCexClosedDoc clipCexSession) (by decide)]
  decide

end Eternity

namespace Eternity

theorem pageLoop_flatten (l : List Entry) : ∀ (cur : List Entry) (cnt : Nat),
    (pageLoop l cur cnt).flatten = cur ++ l := by
  induction l with
  | nil => intro cur cnt; simp [pageLoop]
  | cons e rest ih =>
    intro cur cnt
    rw [pageLoop]
    split
    · simp [List.flatten, ih]
    · rw [ih]; simp

theorem pageStartsWithHeader_append (p : List Entry) (e : Entry)
    (h : pageStartsWithHeader p = true) :
    pageStartsWithHeader (p ++ [e]) = true := by
  cases p with
  | nil => simp [pageStartsWithHeader] at h
  | cons x xs => simpa [pageStartsWithHeader] using h

theorem pageLoop_all_header (l : List Entry) : ∀ (cur : List Entry) (cnt : Nat),
    pageStartsWithHeader cur = true →
    ((pageLoop l cur cnt).all pageStartsWithHeader) = true := by
  induction l with
  | nil => intro cur cnt h; simp [pageLoop, h]
  | cons e rest ih =>
    intro cur cnt h
    rw [pageLoop]
    split
    · rename_i hcond
      have he : e.isUserHeader = true := by
        simp only [Bool.and_eq_true] at hcond
        exact hcond.2
      simp only [List.all_cons, h, Bool.true_and]
      exact ih [e] 0 (by simpa [pageStartsWithHeader] using he)
    · exact ih (cur ++ [e]) _ (pageStartsWithHeader_append cur e h)

theorem pageLoop_tail_header (l : List Entry) : ∀ (cur : List Entry) (cnt : Nat),
    (((pageLoop l cur cnt).drop 1).all pageStartsWithHeader) = true := by
  induction l with
  | nil => intro cur cnt; simp [pageLoop]
  | cons e rest ih =>
    intro cur cnt
    rw [pageLoop]
    split
    · rename_i hcond
      have he : e.isUserHeader = true := by
        simp only [Bool.and_eq_true] at hcond
        exact hcond.2
      simpa using pageLoop_all_header rest [e] 0
        (by simpa [pageStartsWithHeader] using he)
    · exact ih _ _

/-- **C8**: pages keep every entry in order (`join` restores the entry
sequence), a new page begins only at a user header (every page after the
first starts with one — a user's session list is never split across
pages), and concretely a user with 8 sessions keeps all 8 on one page
(exceeding the capacity of 6) while the next user starts a fresh page. -/
theorem paginationBoundary :
    (∀ entries : List Entry, (buildReportPages entries).flatten = entries) ∧
    (∀ entries : List Entry,
      (((buildReportPages entries).drop 1).all pageStartsWithHeader) = true) ∧
    buildReportPages paginationCexEntries =
      [Entry.userHeader "alice" 8 240 0 :: (List.range 8).map sampleStreamEntry,
       Entry.userHeader "bob" 2 60 0 ::
         (List.range 2).map sampleStreamEntryB] := by
  refine ⟨fun entries => ?_, fun entries => ?_, by decide⟩
  · cases entries with
    | nil => simp [buildReportPages]
    | cons e rest => simpa [buildReportPages] using pageLoop_flatten rest [e] _
  · cases entries with
    | nil => simp [buildReportPages]
    | cons e rest => exact pageLoop_tail_header rest [e] _

theorem foldl_extractStep_no_overlap (ws we : Int) (a : StreamActivity)
    (l : List StreamSession)
    (h : ∀ s ∈ l, streamOverlapsPeriod ws we s = false) :
    ∀ acc, l.foldl (extractStep ws we a) acc = acc := by
  induction l with
  | nil => intro acc; rfl
  | cons s t ih =>
    intro acc
    rw [List.foldl_cons]
    have hs : extractStep ws we a acc s = acc := by
      simp [extractStep, h s (List.mem_cons_self s t)]
    rw [hs]
    exact ih (fun s hs => h s (List.mem_cons_of_mem _ hs)) acc

theorem extractProcessedStreams_eq_nil (ws we : Int)
    (docs : List StreamActivity)
    (h : ∀ a ∈ docs, ∀ s ∈ a.streams, streamOverlapsPeriod ws we s = false) :
    extractProcessedStreams ws we docs = [] := by
  have key : ∀ acc, docs.foldl
      (fun acc a => a.streams.foldl (extractStep ws we a) acc) acc = acc := by
    induction docs with
    | nil => intro acc; rfl
    | cons a t ih =>
      intro acc
      rw [List.foldl_cons,
        foldl_extractStep_no_overlap ws we a a.streams
          (h a (List.mem_cons_self a t)) acc]
      exact ih (fun b hb => h b (List.mem_cons_of_mem _ hb)) acc
  simpa [extractProcessedStreams] using congrArg Prod.snd (key ([], []))

/-- **C9**: `generateHourlyReport` and `generateDailyReport` never
propagate an exception: the result is always a non-empty list of embeds —
a single error-report page whenever an internal step throws (a rejected
store or config query, or the `pageCount` ReferenceError reached on every
non-empty result), and a single `No Streams` page when no stored session
overlaps the window. -/
theorem reportNeverThrows (ws we : Int) (configResult : Except String Unit)
    (findResult : Except String (List StreamActivity)) :
    generateHourlyReport ws we findResult ≠ [] ∧
    generateDailyReport ws we configResult findResult ≠ [] ∧
    (∀ message, findResult = Except.error message →
      generateHourlyReport ws we findResult =
        [ReportPage.errorReport message] ∧
      generateDailyReport ws we (Except.ok ()) findResult =
        [ReportPage.errorReport message]) ∧
    (∀ message, configResult = Except.error message →
      generateDailyReport ws we configResult findResult =
        [ReportPage.errorReport message]) ∧
    (∀ docs, findResult = Except.ok docs →
      (∀ a ∈ docs, ∀ s ∈ a.streams, streamOverlapsPeriod ws we s = false) →
      generateHourlyReport ws we findResult = [ReportPage.noStreams] ∧
      generateDailyReport ws we (Except.ok ()) findResult =
        [ReportPage.noStreams]) := by
  refine ⟨?_, ?_, ?_, ?_, ?_⟩
  · cases findResult with
    | error message => simp [generateHourlyReport, generateHourlyReportBody]
    | ok docs =>
      simp only [generateHourlyReport, generateHourlyReportBody]
      split
      · rename_i embeds heq
        split at heq
        · cases heq; simp
        · cases heq
      · simp
  · cases configResult with
    | error message => simp [generateDailyReport, generateDailyReportBody]
    | ok u =>
      cases findResult with
      | error message => simp [generateDailyReport, generateDailyReportBody]
      | ok docs =>
        simp only [generateDailyReport, generateDailyReportBody]
        split
        · rename_i embeds heq
          split at heq
          · cases heq; simp
          · cases heq
        · simp
  · intro message hmsg
    subst hmsg
    exact ⟨by simp [generateHourlyReport, generateHourlyReportBody],
      by simp [generateDailyReport, generateDailyReportBody]⟩
  · intro message hmsg
    subst hmsg
    simp [generateDailyReport, generateDailyReportBody]
  · intro docs hdocs hno
    subst hdocs
    have hext := extractProcessedStreams_eq_nil ws we docs hno
    exact ⟨by simp [generateHourlyReport, generateHourlyReportBody, hext,
        sortDescBy],
      by simp [generateDailyReport, generateDailyReportBody, hext,
        sortDescBy]⟩

/-- Concrete runs witnessing `reportNeverThrows`: an empty query result
gives the single `No Streams` page; a rejected query gives the single
error page. -/
theorem reportNeverThrows_witness :
    generateHourlyReport 0 3600000 (Except.ok []) = [ReportPage.noStreams] ∧
    generateHourlyReport 0 3600000 (Except.error "db down") =
      [ReportPage.errorReport "db down"] := by
  refine ⟨((reportNeverThrows 0 3600000 (Except.ok ())
      (Except.ok [])).2.2.2.2 [] rfl (by simp)).1, ?_⟩
  exact ((reportNeverThrows 0 3600000 (Except.ok ())
    (Except.error "db down")).2.2.1 "db down" rfl).1

end Eternity

namespace Eternity

theorem mem_insertDescBy {α : Type} (key : α → Int) (x y : α) (l : List α) :
    y ∈ insertDescBy key x l ↔ y = x ∨ y ∈ l := by
  induction l with
  | nil => simp [insertDescBy]
  | cons z zs ih =>
    rw [insertDescBy]
    split
    · simp [List.mem_cons]
    · simp only [List.mem_cons, ih]
      tauto

theorem mem_sortDescBy {α : Type} (key : α → Int) (y : α) (l : List α) :
    y ∈ sortDescBy key l ↔ y ∈ l := by
  induction l with
  | nil => simp [sortDescBy]
  | cons x xs ih =>
    rw [sortDescBy, mem_insertDescBy]
    simp [ih]

theorem pairwise_insertDescBy {α : Type} (key : α → Int) (x : α) (l : List α)
    (h : l.Pairwise (fun a b => key b ≤ key a)) :
    (insertDescBy key x l).Pairwise (fun a b => key b ≤ key a) := by
  induction l with
  | nil => simp [insertDescBy]
  | cons z zs ih =>
    rw [insertDescBy]
    have h1 := (List.pairwise_cons.mp h).1
    have h2 := (List.pairwise_cons.mp h).2
    split
    · rename_i hcond
      refine List.Pairwise.cons ?_ h
      intro b hb
      rcases List.mem_cons.mp hb with rfl | hb
      · exact hcond
      · exact le_trans (h1 b hb) hcond
    · rename_i hcond
      refine List.Pairwise.cons ?_ (ih h2)
      intro b hb
      rcases (mem_insertDescBy key x b zs).mp hb with rfl | hb
      · omega
      · exact h1 b hb

theorem pairwise_sortDescBy {α : Type} (key : α → Int) (l : List α) :
    (sortDescBy key l).Pairwise (fun a b => key b ≤ key a) := by
  induction l with
  | nil => simp [sortDescBy]
  | cons x xs ih => exact pairwise_insertDescBy key x _ ih

/-- **C10**: the leaderboard contains only users with strictly positive
stream time for the selected period, is sorted by stream time descending,
and has at most `limit` entries; consequently a user whose period stats
show zero minutes (for instance because every session was interrupted, so
`streamCount` is positive but no duration was ever accumulated) never
appears on it. -/
theorem leaderboardPositiveSorted (period : String) (limit : Nat)
    (users : List StreamActivity) :
    (∀ e ∈ getServerStreamLeaderboard period limit users, 0 < e.streamTime) ∧
    (getServerStreamLeaderboard period limit users).Pairwise
      (fun a b => b.streamTime ≤ a.streamTime) ∧
    (getServerStreamLeaderboard period limit users).length ≤ limit ∧
    (∀ u ∈ users, (leaderboardEntryOf period u).streamTime = 0 →
      leaderboardEntryOf period u ∉
        getServerStreamLeaderboard period limit users) := by
  have hmem : ∀ e ∈ getServerStreamLeaderboard period limit users,
      0 < e.streamTime := by
    intro e he
    rw [getServerStreamLeaderboard] at he
    split at he
    · simp at he
    · have h1 := List.mem_of_mem_take he
      have h2 := (mem_sortDescBy _ e _).mp h1
      exact of_decide_eq_true (List.mem_filter.mp h2).2
  refine ⟨hmem, ?_, ?_, ?_⟩
  · rw [getServerStreamLeaderboard]
    split
    · simp
    · refine List.Pairwise.imp ?_
        ((pairwise_sortDescBy (fun u => (u.streamTime : Int)) _).sublist
          (List.take_sublist _ _))
      intro a b hab
      exact_mod_cast hab
  · rw [getServerStreamLeaderboard]
    split
    · simp
    · simp
  · intro u hu h0 hin
    have := hmem _ hin
    omega

/-- Concrete run witnessing `leaderboardPositiveSorted`: the user whose
only session was interrupted (1 stream, 0 minutes in the daily window)
does not appear next to the user with a 20-minute closed session. -/
theorem leaderboardPositiveSorted_witness :
    (leaderboardEntryOf "day" bobInterruptedDoc).streamCount = 1 ∧
    (leaderboardEntryOf "day" bobInterruptedDoc).streamTime = 0 ∧
    leaderboardEntryOf "day" bobInterruptedDoc ∉
      getServerStreamLeaderboard "day" 10 [clipCexClosedDoc, bobInterruptedDoc] := by
  refine ⟨by decide, by decide, ?_⟩
  exact (leaderboardPositiveSorted "day" 10
      [clipCexClosedDoc, bobInterruptedDoc]).2.2.2
    bobInterruptedDoc (by decide) (by decide)

end Eternity

namespace Eternity

theorem markStreamAsInterrupted_key (now : Nat) (a : StreamActivity) :
    (markStreamAsInterrupted now a).1.userId = a.userId ∧
    (markStreamAsInterrupted now a).1.guildId = a.guildId := by
  cases h : a.streams.getLast? with
  | none => simp [markStreamAsInterrupted, h]
  | some latest =>
    by_cases he : latest.endTime.isSome <;>
      simp [markStreamAsInterrupted, h, he]

theorem markStreamAsInterrupted_getLast (now : Nat) (a : StreamActivity)
    (s : StreamSession) (hlast : a.streams.getLast? = some s)
    (hopen : s.endTime = none) :
    (markStreamAsInterrupted now a).1.streams.getLast? =
      some { s with interrupted := true
                    endTime := some now
                    duration := (now - s.startTime) / (1000 * 60) } := by
  rcases List.eq_nil_or_concat a.streams with h0 | ⟨xs, x, h0⟩
  · rw [h0] at hlast; simp at hlast
  · rw [List.concat_eq_append] at h0
    have hx : x = s := by
      rw [h0, List.getLast?_concat] at hlast
      exact Option.some.inj hlast
    subst hx
    simp [markStreamAsInterrupted, h0, List.getLast?_concat, hopen,
      List.dropLast_concat]

theorem streams_any_open (a : StreamActivity) (s : StreamSession)
    (hlast : a.streams.getLast? = some s) (hopen : s.endTime = none) :
    a.streams.any (fun t => t.endTime.isNone) = true := by
  rcases List.eq_nil_or_concat a.streams with h0 | ⟨xs, x, h0⟩
  · rw [h0] at hlast; simp at hlast
  · rw [List.concat_eq_append] at h0
    have hx : x = s := by
      rw [h0, List.getLast?_concat] at hlast
      exact Option.some.inj hlast
    subst hx
    simp [h0, List.any_append, hopen]

theorem findOneDoc_replaceDoc_ne (u g u2 g2 : String) (a2 : StreamActivity)
    (store : List StreamActivity)
    (hk : a2.userId = u2 ∧ a2.guildId = g2)
    (hne : ¬(u = u2 ∧ g = g2)) :
    findOneDoc u g (replaceDoc u2 g2 a2 store) = findOneDoc u g store := by
  have ha2f : (a2.userId == u && a2.guildId == g) = false := by
    rw [Bool.eq_false_iff]
    simp only [ne_eq, Bool.and_eq_true, beq_iff_eq, not_and]
    intro hc1 hc2
    exact hne ⟨by rw [← hc1, hk.1], by rw [← hc2, hk.2]⟩
  induction store with
  | nil => rfl
  | cons b rest ih =>
    rw [replaceDoc]
    split
    · rename_i hb
      simp only [Bool.and_eq_true, beq_iff_eq] at hb
      have hbf : (b.userId == u && b.guildId == g) = false := by
        rw [Bool.eq_false_iff]
        simp only [ne_eq, Bool.and_eq_true, beq_iff_eq, not_and]
        intro hc1 hc2
        exact hne ⟨by rw [← hc1, hb.1], by rw [← hc2, hb.2]⟩
      simp only [findOneDoc, List.find?_cons, ha2f, hbf]
    · by_cases hmatch : (b.userId == u && b.guildId == g) = true
      · simp only [findOneDoc, List.find?_cons, hmatch]
      · have hbf := Bool.eq_false_iff.mpr hmatch
        simp only [findOneDoc, List.find?_cons, hbf]
        exact ih

theorem findOneDoc_replaceDoc_self (u g : String) (a a2 : StreamActivity)
    (store : List StreamActivity)
    (hk : a2.userId = u ∧ a2.guildId = g)
    (hfind : findOneDoc u g store = some a) :
    findOneDoc u g (replaceDoc u g a2 store) = some a2 := by
  induction store with
  | nil => simp [findOneDoc] at hfind
  | cons b rest ih =>
    rw [replaceDoc]
    split
    · have ha2t : (a2.userId == u && a2.guildId == g) = true := by
        simp [hk.1, hk.2]
      simp only [findOneDoc, List.find?_cons, ha2t]
    · rename_i hb
      have hbf := Bool.eq_false_iff.mpr hb
      simp only [findOneDoc, List.find?_cons, hbf] at hfind
      simp only [findOneDoc, List.find?_cons, hbf]
      exact ih hfind

theorem findOneDoc_of_mem_nodup (store : List StreamActivity)
    (a : StreamActivity) (hnd : (store.map docKey).Nodup) (ha : a ∈ store) :
    findOneDoc a.userId a.guildId store = some a := by
  induction store with
  | nil => cases ha
  | cons b rest ih =>
    rw [List.map_cons, List.nodup_cons] at hnd
    rcases List.mem_cons.mp ha with rfl | ha2
    · have hat : (a.userId == a.userId && a.guildId == a.guildId) = true := by
        simp
      simp only [findOneDoc, List.find?_cons, hat]
    · have hkey : docKey b ≠ docKey a := by
        intro hc
        exact hnd.1 (hc ▸ List.mem_map_of_mem docKey ha2)
      have hbf : (b.userId == a.userId && b.guildId == a.guildId) = false := by
        rw [Bool.eq_false_iff]
        simp only [ne_eq, Bool.and_eq_true, beq_iff_eq, not_and]
        intro hc1 hc2
        exact hkey (by rw [docKey, docKey, hc1, hc2])
      simp only [findOneDoc, List.find?_cons, hbf]
      exact ih hnd.2 ha2

theorem markStreamAsInterruptedStore_lookup_ne (now : Nat)
    (u2 g2 u g : String) (store : List StreamActivity)
    (hne : ¬(u = u2 ∧ g = g2)) :
    findOneDoc u g (markStreamAsInterruptedStore now u2 g2 store).1 =
      findOneDoc u g store := by
  rw [markStreamAsInterruptedStore]
  cases hf : findOneDoc u2 g2 store with
  | none => rfl
  | some a1 =>
    have hka := List.find?_some hf
    simp only [Bool.and_eq_true, beq_iff_eq] at hka
    have hk2 := markStreamAsInterrupted_key now a1
    exact findOneDoc_replaceDoc_ne u g u2 g2 _ store
      ⟨by rw [hk2.1, hka.1], by rw [hk2.2, hka.2]⟩ hne

theorem markStreamAsInterruptedStore_lookup_self (now : Nat)
    (u g : String) (store : List StreamActivity) (a : StreamActivity)
    (hfind : findOneDoc u g store = some a) :
    findOneDoc u g (markStreamAsInterruptedStore now u g store).1 =
      some (markStreamAsInterrupted now a).1 := by
  rw [markStreamAsInterruptedStore, hfind]
  have hka := List.find?_some hfind
  simp only [Bool.and_eq_true, beq_iff_eq] at hka
  have hk2 := markStreamAsInterrupted_key now a
  exact findOneDoc_replaceDoc_self u g a _ store
    ⟨by rw [hk2.1, hka.1], by rw [hk2.2, hka.2]⟩ hfind

theorem processActiveStream_eq_ok (env : RecoveryEnv) (now : Nat)
    (store : List StreamActivity) (rec : ActiveStreamRec)
    (hthrow : env.interruptThrows rec.userId rec.guildId = false) :
    processActiveStream env now store rec =
      Except.ok (if recoveryLeavesOpen env rec then store
        else (markStreamAsInterruptedStore now rec.userId rec.guildId store).1) := by
  by_cases h1 : env.guildKnown rec.guildId <;>
    by_cases h2 : env.userFetch rec.userId <;>
      by_cases h3 : isCurrentlyStreaming (env.memberFetch rec.guildId rec.userId)
          rec.channelId <;>
        simp [processActiveStream, recoveryLeavesOpen, tryMarkInterrupted,
          hthrow, h1, h2, h3]

theorem processActiveStream_lookup_ne (env : RecoveryEnv) (now : Nat)
    (store : List StreamActivity) (rec : ActiveStreamRec) (u g : String)
    (hne : ¬(u = rec.userId ∧ g = rec.guildId))
    (store2 : List StreamActivity)
    (hok : processActiveStream env now store rec = Except.ok store2) :
    findOneDoc u g store2 = findOneDoc u g store := by
  have hmark : ∀ st2, tryMarkInterrupted env now rec.userId rec.guildId store =
      Except.ok st2 → findOneDoc u g st2 = findOneDoc u g store := by
    intro st2 h2
    rw [tryMarkInterrupted] at h2
    split at h2
    · cases h2
    · cases h2
      exact markStreamAsInterruptedStore_lookup_ne now rec.userId rec.guildId
        u g store hne
  rw [processActiveStream] at hok
  split at hok
  · exact hmark _ hok
  · split at hok
    · exact hmark _ hok
    · split at hok
      · exact hmark _ hok
      · cases hok; rfl

theorem runRecoveryLoop_lookup_ne (env : RecoveryEnv) (now : Nat)
    (u g : String) (recs : List ActiveStreamRec) :
    ∀ store : List StreamActivity,
    (∀ rec ∈ recs, ¬(u = rec.userId ∧ g = rec.guildId)) →
    findOneDoc u g (runRecoveryLoop env now recs store) =
      findOneDoc u g store := by
  induction recs with
  | nil => intro store _; rfl
  | cons rec rest ih =>
    intro store hne
    cases hp : processActiveStream env now store rec with
    | ok store2 =>
      rw [runRecoveryLoop, hp]
      rw [ih store2 (fun r hr => hne r (List.mem_cons_of_mem _ hr))]
      exact processActiveStream_lookup_ne env now store rec u g
        (hne rec (List.mem_cons_self _ _)) store2 hp
    | error e =>
      rw [runRecoveryLoop, hp]

theorem runRecoveryLoop_append (env : RecoveryEnv) (now : Nat)
    (hthrow : ∀ u g, env.interruptThrows u g = false)
    (recs1 recs2 : List ActiveStreamRec) :
    ∀ store : List StreamActivity,
    runRecoveryLoop env now (recs1 ++ recs2) store =
      runRecoveryLoop env now recs2 (runRecoveryLoop env now recs1 store) := by
  induction recs1 with
  | nil => intro store; rfl
  | cons rec rest ih =>
    intro store
    have hp := processActiveStream_eq_ok env now store rec (hthrow _ _)
    rw [List.cons_append, runRecoveryLoop, hp]
    conv_rhs => rw [runRecoveryLoop, hp]
    exact ih _

theorem getAllActiveStreams_key (store : List StreamActivity)
    (rec : ActiveStreamRec) (h : rec ∈ getAllActiveStreams store) :
    ∃ b ∈ store, rec.userId = b.userId ∧ rec.guildId = b.guildId := by
  rw [getAllActiveStreams] at h
  obtain ⟨b, hb, hfb⟩ := List.mem_filterMap.mp h
  refine ⟨b, List.mem_of_mem_filter hb, ?_⟩
  rw [activeStreamRecOf] at hfb
  cases hl : b.streams.getLast? with
  | none => rw [hl] at hfb; cases hfb
  | some latest =>
    rw [hl] at hfb
    have hfb2 : (if latest.endTime.isNone = true
        then some (recoveredStreamRec b latest) else none) = some rec := hfb
    by_cases ho : latest.endTime.isNone = true
    · rw [if_pos ho] at hfb2
      cases hfb2
      exact ⟨rfl, rfl⟩
    · rw [if_neg ho] at hfb2; cases hfb2

theorem getAllActiveStreams_middle (s1 s2 : List StreamActivity)
    (a : StreamActivity) (s : StreamSession)
    (hlast : a.streams.getLast? = some s) (hopen : s.endTime = none) :
    getAllActiveStreams (s1 ++ a :: s2) =
      getAllActiveStreams s1 ++
        recoveredStreamRec a s :: getAllActiveStreams s2 := by
  have hany := streams_any_open a s hlast hopen
  have hrec : activeStreamRecOf a = some (recoveredStreamRec a s) := by
    rw [activeStreamRecOf, hlast]
    simp [hopen, recoveredStreamRec]
  simp [getAllActiveStreams, List.filter_append, List.filter_cons, hany,
    List.filterMap_append, List.filterMap_cons, hrec]

theorem recovery_lookup (env : RecoveryEnv) (now : Nat)
    (store : List StreamActivity) (a : StreamActivity) (s : StreamSession)
    (hnd : (store.map docKey).Nodup)
    (hthrow : ∀ u g, env.interruptThrows u g = false)
    (ha : a ∈ store)
    (hlast : a.streams.getLast? = some s) (hopen : s.endTime = none) :
    findOneDoc a.userId a.guildId (checkPreviousSessionStreams env now store) =
      some (if recoveryLeavesOpen env (recoveredStreamRec a s) then a
            else (markStreamAsInterrupted now a).1) := by
  have hfind := findOneDoc_of_mem_nodup store a hnd ha
  obtain ⟨s1, s2, rfl⟩ := List.append_of_mem ha
  have hnd' := hnd
  rw [List.map_append, List.map_cons] at hnd'
  have h12 := List.nodup_append.mp hnd'
  have hk1 : docKey a ∉ s1.map docKey := fun hmem =>
    h12.2.2 hmem (List.mem_cons_self _ _)
  have hk2 : docKey a ∉ s2.map docKey := (List.nodup_cons.mp h12.2.1).1
  have hotherkeys : ∀ t : List StreamActivity, docKey a ∉ t.map docKey →
      ∀ rec ∈ getAllActiveStreams t,
        ¬(a.userId = rec.userId ∧ a.guildId = rec.guildId) := by
    intro t ht rec hrec hc
    obtain ⟨b, hb, hb1, hb2⟩ := getAllActiveStreams_key t rec hrec
    refine ht ?_
    have hkey : docKey a = docKey b := by
      rw [docKey, docKey, hc.1, hc.2, hb1, hb2]
    rw [hkey]
    exact List.mem_map_of_mem docKey hb
  rw [checkPreviousSessionStreams,
    getAllActiveStreams_middle s1 s2 a s hlast hopen,
    runRecoveryLoop_append env now hthrow]
  have hafter1 : findOneDoc a.userId a.guildId
      (runRecoveryLoop env now (getAllActiveStreams s1) (s1 ++ a :: s2)) =
        some a := by
    rw [runRecoveryLoop_lookup_ne env now a.userId a.guildId _ _
      (hotherkeys s1 hk1), hfind]
  have hstep := processActiveStream_eq_ok env now
    (runRecoveryLoop env now (getAllActiveStreams s1) (s1 ++ a :: s2))
    (recoveredStreamRec a s) (hthrow _ _)
  rw [runRecoveryLoop, hstep]
  rw [runRecoveryLoop_lookup_ne env now a.userId a.guildId _ _
    (hotherkeys s2 hk2)]
  by_cases hleave : recoveryLeavesOpen env (recoveredStreamRec a s) = true
  · rw [if_pos hleave, if_pos hleave, hafter1]
  · rw [if_neg hleave, if_neg hleave]
    exact markStreamAsInterruptedStore_lookup_self now a.userId a.guildId _ a
      hafter1

end Eternity

namespace Eternity

/-- **C5**: after crash recovery, an aggregate whose open session was
recorded in channel `A` keeps that session open iff the member is
currently streaming in exactly channel `A` (guild known, user resolvable,
member resolved with `voice.streaming` and `voice.channelId = A`); in
every other case — member unresolvable, not streaming, or streaming in a
different channel `B ≠ A` — the session is closed with
`interrupted = true`, never silently continued as channel `B`. -/
theorem recoveryChannelExactness (env : RecoveryEnv) (now : Nat)
    (store : List StreamActivity) (a : StreamActivity) (s : StreamSession)
    (hnd : (store.map docKey).Nodup)
    (hthrow : ∀ u g, env.interruptThrows u g = false)
    (ha : a ∈ store)
    (hlast : a.streams.getLast? = some s) (hopen : s.endTime = none) :
    ∃ a', findOneDoc a.userId a.guildId
        (checkPreviousSessionStreams env now store) = some a' ∧
      (recoveryLeavesOpen env (recoveredStreamRec a s) = true → a' = a) ∧
      (recoveryLeavesOpen env (recoveredStreamRec a s) = false →
        a'.streams.getLast? =
          some { s with interrupted := true
                        endTime := some now
                        duration := (now - s.startTime) / (1000 * 60) }) ∧
      ((a'.streams.getLast?.map (fun t => t.endTime.isNone)) = some true ↔
        recoveryLeavesOpen env (recoveredStreamRec a s) = true) := by
  have h := recovery_lookup env now store a s hnd hthrow ha hlast hopen
  by_cases hleave : recoveryLeavesOpen env (recoveredStreamRec a s) = true
  · refine ⟨a, by rwa [if_pos hleave] at h, fun _ => rfl,
      fun hc => by simp [hleave] at hc, ?_⟩
    simp [hlast, hopen, hleave]
  · have hleave' : recoveryLeavesOpen env (recoveredStreamRec a s) = false :=
      Bool.eq_false_iff.mpr hleave
    refine ⟨(markStreamAsInterrupted now a).1, by rwa [if_neg hleave] at h,
      fun hc => absurd hc hleave,
      fun _ => markStreamAsInterrupted_getLast now a s hlast hopen, ?_⟩
    rw [markStreamAsInterrupted_getLast now a s hlast hopen]
    simp [hleave']

/-- Concrete run witnessing `recoveryChannelExactness`: the session was
recorded in channel `cA`, the presence oracle reports the member streaming
in `cB`, and recovery closes the `cA` session as interrupted. -/
theorem recoveryChannelExactness_witness :
    ∃ a', findOneDoc "u1" "g1"
        (checkPreviousSessionStreams channelSwitchEnv 9000 recoveryCexStore) =
          some a' ∧
      a'.streams.getLast? = some ⟨1000, some 9000, "cA", "alpha",
        (9000 - 1000) / (1000 * 60), "2025-04-29", "2025-18", "2025-04",
        true, none, none⟩ := by
  obtain ⟨a', h1, _, h3, _⟩ := recoveryChannelExactness channelSwitchEnv 9000
    recoveryCexStore
    (startStream ⟨"2025-04-29", "2025-18", "2025-04"⟩ 1000 "cA" "alpha"
      (newStreamActivity ⟨"2025-04-29", "2025-18", "2025-04"⟩ 0
        "u1" "alice" "g1" "guild-one"))
    ⟨1000, none, "cA", "alpha", 0, "2025-04-29", "2025-18", "2025-04",
      false, none, none⟩
    (by decide) (fun _ _ => rfl) (by decide) (by decide) (by decide)
  exact ⟨a', h1, h3 (by decide)⟩

/-- **C7 counterexample**: two open sessions need reconciling and the
store rejects the `markStreamAsInterrupted` save for the first; the single
try/catch around the whole recovery loop then aborts reconciliation, so
the second aggregate — whose guild is unknown, hence must be interrupted —
is never examined and its session stays open, while the identical run with
a healthy store closes both. -/
theorem recoveryAbort_counterexample :
    checkPreviousSessionStreams recoveryCexEnv 9000 recoveryCexStore =
      recoveryCexStore ∧
    recoveryLeavesOpen recoveryCexEnv
      ⟨"u2", "bob", "g2", "guild-two", "cB", "beta", 2000⟩ = false ∧
    ((findOneDoc "u2" "g2" (checkPreviousSessionStreams recoveryCexEnv 9000
        recoveryCexStore)).map
      (fun b => b.streams.map (fun t => (t.endTime, t.interrupted)))) =
      some [(none, false)] ∧
    ((findOneDoc "u2" "g2" (checkPreviousSessionStreams recoveryCexEnvNoThrow
        9000 recoveryCexStore)).map
      (fun b => b.streams.map (fun t => (t.endTime, t.interrupted)))) =
      some [(some 9000, true)] := by decide

/-- **C7 amended**: as long as the store itself does not throw, recovery
examines every aggregate with an open session and either leaves it open or
closes it as interrupted — a presence oracle that cannot resolve the
guild, user or member for some of the users never aborts the loop (such
users are simply treated as not streaming); a store failure inside
`markStreamAsInterrupted` for one user, however, does abort reconciliation
of the remaining open sessions. -/
theorem recoveryIsolation (env : RecoveryEnv) (now : Nat)
    (store : List StreamActivity)
    (hnd : (store.map docKey).Nodup)
    (hthrow : ∀ u g, env.interruptThrows u g = false) :
    ∀ a ∈ store, ∀ s, a.streams.getLast? = some s → s.endTime = none →
      ∃ a', findOneDoc a.userId a.guildId
          (checkPreviousSessionStreams env now store) = some a' ∧
        (a' = a ∨ a' = (markStreamAsInterrupted now a).1) := by
  intro a ha s hlast hopen
  have h := recovery_lookup env now store a s hnd hthrow ha hlast hopen
  by_cases hleave : recoveryLeavesOpen env (recoveredStreamRec a s) = true
  · exact ⟨a, by rwa [if_pos hleave] at h, Or.inl rfl⟩
  · exact ⟨(markStreamAsInterrupted now a).1, by rwa [if_neg hleave] at h,
      Or.inr rfl⟩

/-- Concrete run witnessing `recoveryIsolation`: with a healthy store,
the second aggregate is examined even though the oracle resolves nothing
(both guilds unknown), and ends up closed as interrupted. -/
theorem recoveryIsolation_witness :
    ∃ a', findOneDoc "u2" "g2"
        (checkPreviousSessionStreams recoveryCexEnvNoThrow 9000
          recoveryCexStore) = some a' ∧
      (a' = startStream ⟨"2025-04-29", "2025-18", "2025-04"⟩ 2000 "cB" "beta"
          (newStreamActivity ⟨"2025-04-29", "2025-18", "2025-04"⟩ 0
            "u2" "bob" "g2" "guild-two") ∨
       a' = (markStreamAsInterrupted 9000
          (startStream ⟨"2025-04-29", "2025-18", "2025-04"⟩ 2000 "cB" "beta"
            (newStreamActivity ⟨"2025-04-29", "2025-18", "2025-04"⟩ 0
              "u2" "bob" "g2" "guild-two"))).1) :=
  recoveryIsolation recoveryCexEnvNoThrow 9000 recoveryCexStore
    (by decide) (fun _ _ => rfl)
    (startStream ⟨"2025-04-29", "2025-18", "2025-04"⟩ 2000 "cB" "beta"
      (newStreamActivity ⟨"2025-04-29", "2025-18", "2025-04"⟩ 0
        "u2" "bob" "g2" "guild-two"))
    (by decide)
    ⟨2000, none, "cB", "beta", 0, "2025-04-29", "2025-18", "2025-04",
      false, none, none⟩
    (by decide) rfl

end Eternity
